import Mathlib

/-!
Shallow embedding of the pricing module of `happy-coder` (`src/api/pricing.ts`):
the static model-pricing table, the model resolver `getModelPricing`, and the
cost calculator `calculateCost`.  Rates are modelled as exact rationals (ℚ),
token counts as integers, the two optional cache token counts as `Option Int`
(the source's `x || 0` becomes `Option.getD 0`).  The source's
`model.toLowerCase()` becomes the character-wise `strToLower`, and
`String.prototype.includes` is embedded as an explicit substring scan
(`strIncludes`).
-/

namespace Pricing

/-- The four per-million rates of `ModelPricing` (pricing.ts). -/
structure ModelPricing where
  inputPer1M : ℚ
  outputPer1M : ℚ
  cacheWritePer1M : ℚ
  cacheReadPer1M : ℚ
deriving DecidableEq, Repr

/-- The static table `MODEL_PRICING` of pricing.ts, as an association list
keyed by the exact model-identifier strings, entries in source order. -/
def MODEL_PRICING : List (String × ModelPricing) := [
  ("claude-opus-4-5-20250514", ⟨15, 75, 18.75, 1.5⟩),
  ("claude-sonnet-4-20250514", ⟨3, 15, 3.75, 0.30⟩),
  ("claude-3-5-sonnet-20241022", ⟨3, 15, 3.75, 0.30⟩),
  ("claude-3-5-sonnet-latest", ⟨3, 15, 3.75, 0.30⟩),
  ("claude-3-5-sonnet-20240620", ⟨3, 15, 3.75, 0.30⟩),
  ("claude-3-5-haiku-20241022", ⟨0.80, 4, 1.00, 0.08⟩),
  ("claude-3-5-haiku-latest", ⟨0.80, 4, 1.00, 0.08⟩),
  ("claude-3-opus-20240229", ⟨15, 75, 18.75, 1.5⟩),
  ("claude-3-opus-latest", ⟨15, 75, 18.75, 1.5⟩),
  ("claude-3-sonnet-20240229", ⟨3, 15, 3.75, 0.30⟩),
  ("claude-3-haiku-20240307", ⟨0.25, 1.25, 0.3125, 0.025⟩)]

/-- Constant `DEFAULT_PRICING` of pricing.ts (fallback when the model is
unknown). -/
def DEFAULT_PRICING : ModelPricing := ⟨3, 15, 3.75, 0.30⟩

/-- The source's `MODEL_PRICING[model]` key lookup (prototype-free record
access: present key ↦ its record, absent key ↦ nothing). -/
def tableLookup (m : String) : Option ModelPricing := MODEL_PRICING.lookup m

/-- Total table access for keys known to be present; the branches of
`getModelPricing` only apply it to literal keys of `MODEL_PRICING`. -/
def tableEntry (k : String) : ModelPricing := (tableLookup k).getD DEFAULT_PRICING

/-- Substring occurrence: `sub.isPrefixOf` tried at every suffix of the
scanned list — the test underlying JavaScript's `String.prototype.includes`. -/
def listContainsSub (sub : List Char) : List Char → Bool
  | [] => sub.isPrefixOf ([] : List Char)
  | c :: cs => sub.isPrefixOf (c :: cs) || listContainsSub sub cs

/-- Embedding of the source's `s.includes(sub)` (true when `sub` occurs
contiguously in `s`, including the empty substring). -/
def strIncludes (s sub : String) : Bool := listContainsSub sub.data s.data

/-- Embedding of the source's `model.toLowerCase()`: the character-wise
lowering map (all identifiers and patterns involved are ASCII, where the
JavaScript and the per-character Lean lowering agree). -/
def strToLower (s : String) : String := ⟨s.data.map Char.toLower⟩

/-- Function `getModelPricing` of pricing.ts.  The JavaScript guard
`if (!model)` is true both when the argument is absent and when it is the
empty string, so the embedding takes an `Option String` and additionally
tests for `""`. -/
def getModelPricing (model : Option String) : ModelPricing :=
  match model with
  | none => DEFAULT_PRICING
  | some m =>
    if m = "" then DEFAULT_PRICING
    else
      match tableLookup m with
      | some p => p
      | none =>
        let modelLower := strToLower m
        if strIncludes modelLower "opus-4" || strIncludes modelLower "opus-4.5" then
          tableEntry "claude-opus-4-5-20250514"
        else if strIncludes modelLower "sonnet-4" then
          tableEntry "claude-sonnet-4-20250514"
        else if strIncludes modelLower "3-5-sonnet" || strIncludes modelLower "3.5-sonnet" then
          tableEntry "claude-3-5-sonnet-20241022"
        else if strIncludes modelLower "3-5-haiku" || strIncludes modelLower "3.5-haiku" then
          tableEntry "claude-3-5-haiku-20241022"
        else if strIncludes modelLower "opus" then
          tableEntry "claude-3-opus-20240229"
        else if strIncludes modelLower "haiku" then
          tableEntry "claude-3-haiku-20240307"
        else if strIncludes modelLower "sonnet" then
          tableEntry "claude-3-5-sonnet-20241022"
        else DEFAULT_PRICING

/-- Which entry a call to `getModelPricing` resolves to: a table entry (by
its key) or the `DEFAULT_PRICING` constant.  Needed because the table's
Sonnet-class records are numerically equal to `DEFAULT_PRICING`, so the
record value alone cannot show which entry was returned (in the source they
are distinct objects). -/
inductive PricingSource where
  | table (key : String)
  | fallback
deriving DecidableEq, Repr

/-- The same branch structure as `getModelPricing`, returning the identity of
the entry instead of its record; `resolveModel_spec` proves the two agree. -/
def resolveModel (model : Option String) : PricingSource :=
  match model with
  | none => .fallback
  | some m =>
    if m = "" then .fallback
    else
      match tableLookup m with
      | some _ => .table m
      | none =>
        let modelLower := strToLower m
        if strIncludes modelLower "opus-4" || strIncludes modelLower "opus-4.5" then
          .table "claude-opus-4-5-20250514"
        else if strIncludes modelLower "sonnet-4" then
          .table "claude-sonnet-4-20250514"
        else if strIncludes modelLower "3-5-sonnet" || strIncludes modelLower "3.5-sonnet" then
          .table "claude-3-5-sonnet-20241022"
        else if strIncludes modelLower "3-5-haiku" || strIncludes modelLower "3.5-haiku" then
          .table "claude-3-5-haiku-20241022"
        else if strIncludes modelLower "opus" then
          .table "claude-3-opus-20240229"
        else if strIncludes modelLower "haiku" then
          .table "claude-3-haiku-20240307"
        else if strIncludes modelLower "sonnet" then
          .table "claude-3-5-sonnet-20241022"
        else .fallback

/-- The record a `PricingSource` stands for. -/
def sourceRecord : PricingSource → ModelPricing
  | .table k => tableEntry k
  | .fallback => DEFAULT_PRICING

/-- Structure `UsageTokens` of pricing.ts: the two cache counts are
optional. -/
structure UsageTokens where
  input_tokens : Int
  output_tokens : Int
  cache_creation_input_tokens : Option Int
  cache_read_input_tokens : Option Int
deriving DecidableEq, Repr

/-- Structure `CostBreakdown` of pricing.ts. -/
structure CostBreakdown where
  total : ℚ
  input : ℚ
  output : ℚ
  cacheWrite : ℚ
  cacheRead : ℚ
deriving DecidableEq, Repr

/-- Function `calculateCost` of pricing.ts: each component is
`(token_count / 1_000_000) * rate`, the total is the sum of the four
components, and an absent cache count is read as zero (`x || 0`). -/
def calculateCost (usage : UsageTokens) (model : Option String) : CostBreakdown :=
  let pricing := getModelPricing model
  let inputCost : ℚ := (usage.input_tokens : ℚ) / 1000000 * pricing.inputPer1M
  let outputCost : ℚ := (usage.output_tokens : ℚ) / 1000000 * pricing.outputPer1M
  let cacheWriteCost : ℚ :=
    ((usage.cache_creation_input_tokens.getD 0 : ℤ) : ℚ) / 1000000 * pricing.cacheWritePer1M
  let cacheReadCost : ℚ :=
    ((usage.cache_read_input_tokens.getD 0 : ℤ) : ℚ) / 1000000 * pricing.cacheReadPer1M
  { total := inputCost + outputCost + cacheWriteCost + cacheReadCost
    input := inputCost
    output := outputCost
    cacheWrite := cacheWriteCost
    cacheRead := cacheReadCost }

/-- The spec's presentation of the family-matching chain (§9 design note): an
ordered list of (predicate, target-key) pairs, evaluated top to bottom. -/
def specFamilyRules : List ((String → Bool) × String) := [
  (fun s => strIncludes s "opus-4" || strIncludes s "opus-4.5", "claude-opus-4-5-20250514"),
  (fun s => strIncludes s "sonnet-4", "claude-sonnet-4-20250514"),
  (fun s => strIncludes s "3-5-sonnet" || strIncludes s "3.5-sonnet", "claude-3-5-sonnet-20241022"),
  (fun s => strIncludes s "3-5-haiku" || strIncludes s "3.5-haiku", "claude-3-5-haiku-20241022"),
  (fun s => strIncludes s "opus", "claude-3-opus-20240229"),
  (fun s => strIncludes s "haiku", "claude-3-haiku-20240307"),
  (fun s => strIncludes s "sonnet", "claude-3-5-sonnet-20241022")]

/-- First-match evaluation of an ordered rule list: the key of the first rule
whose predicate holds; later rules are never consulted. -/
def specFirstMatch : List ((String → Bool) × String) → String → Option String
  | [], _ => none
  | (p, k) :: rest, s => if p s then some k else specFirstMatch rest s

/-- True when the lower-cased identifier satisfies at least one of the seven
family substring tests of `getModelPricing`, grouped as in the source. -/
def familyMatch (s : String) : Bool :=
  (strIncludes s "opus-4" || strIncludes s "opus-4.5") ||
    ((strIncludes s "sonnet-4") ||
      ((strIncludes s "3-5-sonnet" || strIncludes s "3.5-sonnet") ||
        ((strIncludes s "3-5-haiku" || strIncludes s "3.5-haiku") ||
          ((strIncludes s "opus") ||
            ((strIncludes s "haiku") ||
              (strIncludes s "sonnet"))))))

/-- Function `getModelPricing` returns exactly the record of the entry that
`resolveModel` identifies: the two definitions walk the same branches. -/
theorem resolveModel_spec (model : Option String) :
    getModelPricing model = sourceRecord (resolveModel model) := by
  cases model with
  | none => rfl
  | some m =>
    by_cases h : m = ""
    · simp [getModelPricing, resolveModel, h, sourceRecord]
    · simp only [getModelPricing, resolveModel, if_neg h]
      cases hl : tableLookup m with
      | some p => simp [sourceRecord, tableEntry, hl]
      | none =>
        simp only
        split_ifs <;> rfl

/-- A seven-way if-chain over table keys yields the fallback exactly when all
seven conditions are false. -/
lemma ifChain_fallback_iff (c1 c2 c3 c4 c5 c6 c7 : Bool)
    (k1 k2 k3 k4 k5 k6 k7 : String) :
    ((if c1 then PricingSource.table k1
      else if c2 then PricingSource.table k2
      else if c3 then PricingSource.table k3
      else if c4 then PricingSource.table k4
      else if c5 then PricingSource.table k5
      else if c6 then PricingSource.table k6
      else if c7 then PricingSource.table k7
      else PricingSource.fallback) = PricingSource.fallback) ↔
      (c1 || (c2 || (c3 || (c4 || (c5 || (c6 || c7)))))) = false := by
  cases c1 <;> cases c2 <;> cases c3 <;> cases c4 <;> cases c5 <;> cases c6 <;> cases c7 <;> simp

/-- Claim C1: for every provided model string that is not an exact key of the
pricing table, the resolver evaluates the family rules on the lower-cased
string in the fixed priority order with the first match winning — its result
coincides with first-match evaluation of the ordered rule list
`specFamilyRules` — and any such string whose lower-cased form contains
"sonnet" but matches none of the earlier rules resolves to the table entry
for claude-3-5-sonnet-20241022, not to the claude-3-sonnet-20240229 entry. -/
theorem C1_family_priority_order :
    (∀ m : String, m ≠ "" → tableLookup m = none →
      resolveModel (some m) =
        (match specFirstMatch specFamilyRules (strToLower m) with
          | some k => PricingSource.table k
          | none => PricingSource.fallback) ∧
      getModelPricing (some m) =
        (match specFirstMatch specFamilyRules (strToLower m) with
          | some k => tableEntry k
          | none => DEFAULT_PRICING)) ∧
    (∀ m : String, tableLookup m = none →
      strIncludes (strToLower m) "sonnet" = true →
      strIncludes (strToLower m) "opus-4" = false →
      strIncludes (strToLower m) "opus-4.5" = false →
      strIncludes (strToLower m) "sonnet-4" = false →
      strIncludes (strToLower m) "3-5-sonnet" = false →
      strIncludes (strToLower m) "3.5-sonnet" = false →
      strIncludes (strToLower m) "3-5-haiku" = false →
      strIncludes (strToLower m) "3.5-haiku" = false →
      strIncludes (strToLower m) "opus" = false →
      strIncludes (strToLower m) "haiku" = false →
      resolveModel (some m) = PricingSource.table "claude-3-5-sonnet-20241022" ∧
      resolveModel (some m) ≠ PricingSource.table "claude-3-sonnet-20240229" ∧
      getModelPricing (some m) = tableEntry "claude-3-5-sonnet-20241022") ∧
    resolveModel (some "anthropic-sonnet-x") = PricingSource.table "claude-3-5-sonnet-20241022" := by
  refine ⟨?_, ?_, by decide⟩
  · intro m hne hl
    simp only [resolveModel, getModelPricing, if_neg hne, hl]
    simp only [specFirstMatch, specFamilyRules]
    constructor <;> (split_ifs <;> rfl)
  · intro m hl hson h1 h2 h3 h4 h5 h6 h7 h8 h9
    have hne : m ≠ "" := by
      rintro rfl
      exact absurd hson (by decide)
    simp only [resolveModel, getModelPricing, if_neg hne, hl]
    simp [h1, h2, h3, h4, h5, h6, h7, h8, h9, hson]

/-- Claim C2: each of the four cost components equals
`(token_count / 1,000,000) × rate_per_million` of the record that
`getModelPricing` resolves for the model, computed independently, with the
optional cache counts read as zero when absent. -/
theorem C2_component_formula (u : UsageTokens) (model : Option String) :
    (calculateCost u model).input =
      (u.input_tokens : ℚ) / 1000000 * (getModelPricing model).inputPer1M ∧
    (calculateCost u model).output =
      (u.output_tokens : ℚ) / 1000000 * (getModelPricing model).outputPer1M ∧
    (calculateCost u model).cacheWrite =
      ((u.cache_creation_input_tokens.getD 0 : ℤ) : ℚ) / 1000000 *
        (getModelPricing model).cacheWritePer1M ∧
    (calculateCost u model).cacheRead =
      ((u.cache_read_input_tokens.getD 0 : ℤ) : ℚ) / 1000000 *
        (getModelPricing model).cacheReadPer1M :=
  ⟨rfl, rfl, rfl, rfl⟩

/-- Claim C3: for every usage and every optional model string, the returned
total is exactly the sum of the four already-computed component fields, and
all-zero usage (with cache counts absent or present as zero) yields total 0. -/
theorem C3_total_is_sum (u : UsageTokens) (model : Option String) :
    (calculateCost u model).total =
      (calculateCost u model).input + (calculateCost u model).output +
        (calculateCost u model).cacheWrite + (calculateCost u model).cacheRead ∧
    (calculateCost ⟨0, 0, none, none⟩ model).total = 0 ∧
    (calculateCost ⟨0, 0, some 0, some 0⟩ model).total = 0 := by
  refine ⟨rfl, ?_, ?_⟩ <;> simp [calculateCost]

/-- Claim C4: the resolver falls back to the default record exactly when the
model argument is absent — without attempting pattern matching — or when the
provided string is neither an exact table key nor matched by any family
substring rule; in particular totally-unknown-model-xyz yields the default
record, whose rates are 3, 15, 3.75 and 0.30. -/
theorem C4_default_exactly_when :
    getModelPricing none = DEFAULT_PRICING ∧
    resolveModel none = PricingSource.fallback ∧
    (∀ m : String,
      resolveModel (some m) = PricingSource.fallback ↔
        (tableLookup m = none ∧ familyMatch (strToLower m) = false)) ∧
    resolveModel (some "totally-unknown-model-xyz") = PricingSource.fallback ∧
    getModelPricing (some "totally-unknown-model-xyz") = DEFAULT_PRICING ∧
    DEFAULT_PRICING = ⟨3, 15, 3.75, 0.30⟩ := by
  refine ⟨rfl, rfl, ?_, by decide, rfl, rfl⟩
  intro m
  by_cases hne : m = ""
  · subst hne; decide
  · simp only [resolveModel, if_neg hne]
    cases hl : tableLookup m with
    | some p => simp [hl]
    | none =>
      simp only [hl, true_and]
      simp only [familyMatch]
      exact ifChain_fallback_iff _ _ _ _ _ _ _ _ _ _ _ _ _ _

/-- Claim C5: every string present as a key of the pricing table resolves to
exactly its own table entry (exact match beats family match); the exact-match
lookup is case-sensitive — the mixed-case variant of the 3.5-Sonnet key is no
exact match and resolves only via the lower-casing family rules — and the key
claude-3-5-sonnet-20241022 returns its table record 3, 15, 3.75, 0.30. -/
theorem C5_exact_match_wins :
    (∀ (k : String) (p : ModelPricing), tableLookup k = some p →
      getModelPricing (some k) = p ∧ resolveModel (some k) = PricingSource.table k) ∧
    getModelPricing (some "claude-3-5-sonnet-20241022") = ⟨3, 15, 3.75, 0.30⟩ ∧
    tableLookup "Claude-3-5-Sonnet-20241022" = none ∧
    resolveModel (some "Claude-3-5-Sonnet-20241022") =
      PricingSource.table "claude-3-5-sonnet-20241022" := by
  refine ⟨?_, rfl, by decide, by decide⟩
  intro k p h
  have hne : k ≠ "" := by
    rintro rfl
    rw [show tableLookup "" = none from rfl] at h
    exact Option.noConfusion h
  exact ⟨by simp [getModelPricing, hne, h], by simp [resolveModel, hne, h]⟩

/-- Claim C6: the mixed-case string Claude-Opus-4-5-Preview is not an exact
table key and resolves via case-insensitive family matching to the
Opus-4.5-class entry claude-opus-4-5-20250514, with rates 15, 75, 18.75
and 1.5. -/
theorem C6_opus45_family :
    tableLookup "Claude-Opus-4-5-Preview" = none ∧
    resolveModel (some "Claude-Opus-4-5-Preview") =
      PricingSource.table "claude-opus-4-5-20250514" ∧
    getModelPricing (some "Claude-Opus-4-5-Preview") = ⟨15, 75, 18.75, 1.5⟩ :=
  ⟨by decide, by decide, rfl⟩

/-- Claim C7: the two concrete calculations of the spec — cache-only usage on
claude-3-haiku-20240307 gives cacheWrite 0.625, cacheRead 0.0125 and total
0.6375; one million input tokens on claude-3-opus-20240229 give input 15 and
total 15, all other components 0 (breakdown fields in the order total, input,
output, cacheWrite, cacheRead). -/
theorem C7_concrete_costs :
    calculateCost ⟨0, 0, some 2000000, some 500000⟩ (some "claude-3-haiku-20240307") =
      ⟨0.6375, 0, 0, 0.625, 0.0125⟩ ∧
    calculateCost ⟨1000000, 0, none, none⟩ (some "claude-3-opus-20240229") =
      ⟨15, 15, 0, 0, 0⟩ := by
  constructor
  · have h : getModelPricing (some "claude-3-haiku-20240307") = ⟨0.25, 1.25, 0.3125, 0.025⟩ := rfl
    simp only [calculateCost, h]
    norm_num [CostBreakdown.mk.injEq]
  · have h : getModelPricing (some "claude-3-opus-20240229") = ⟨15, 75, 18.75, 1.5⟩ := rfl
    simp only [calculateCost, h]
    norm_num [CostBreakdown.mk.injEq]

/-- Claim C8: every entry of the static pricing table, and the default
record, satisfies cacheWriteRate = inputRate × 1.25 and
cacheReadRate = inputRate × 0.10 — exactly, in rational arithmetic, hence
within any floating-point tolerance. -/
theorem C8_cache_rate_convention :
    (∀ e ∈ MODEL_PRICING,
      e.2.cacheWritePer1M = e.2.inputPer1M * 1.25 ∧
      e.2.cacheReadPer1M = e.2.inputPer1M * 0.10) ∧
    DEFAULT_PRICING.cacheWritePer1M = DEFAULT_PRICING.inputPer1M * 1.25 ∧
    DEFAULT_PRICING.cacheReadPer1M = DEFAULT_PRICING.inputPer1M * 0.10 := by
  refine ⟨?_, by norm_num [DEFAULT_PRICING], by norm_num [DEFAULT_PRICING]⟩
  simp only [ MODEL_PRICING, List.mem_cons, List.not_mem_nil, or_false]
  rintro e (rfl | rfl | rfl | rfl | rfl | rfl | rfl | rfl | rfl | rfl | rfl) <;> norm_num

/-- Claim C9: both `getModelPricing` and `calculateCost` are deterministic
pure functions — two calls with identical arguments yield identical results.
In the embedding both are total functions of their arguments alone (the table
is a constant, no call reads or writes any other state), so determinism is
the congruence stated here. -/
theorem C9_purity (m m2 : Option String) (u u2 : UsageTokens)
    (hm : m = m2) (hu : u = u2) :
    getModelPricing m = getModelPricing m2 ∧ calculateCost u m = calculateCost u2 m2 := by
  subst hm
  subst hu
  exact ⟨rfl, rfl⟩

/-- Witness for claim C9 at a concrete model and usage. -/
theorem C9_purity_witness :
    getModelPricing (some "claude-3-opus-20240229") =
      getModelPricing (some "claude-3-opus-20240229") ∧
    calculateCost ⟨1, 2, none, some 3⟩ (some "claude-3-opus-20240229") =
      calculateCost ⟨1, 2, none, some 3⟩ (some "claude-3-opus-20240229") :=
  C9_purity (some "claude-3-opus-20240229") (some "claude-3-opus-20240229")
    ⟨1, 2, none, some 3⟩ ⟨1, 2, none, some 3⟩ rfl rfl

/-- Claim C10: for any fixed model argument, `calculateCost` is componentwise
additive in the token counts: if a usage is the fieldwise sum of two usages
(absent cache fields read as zero), every field of its breakdown — the four
components and the total — is the sum of the corresponding fields of the two
summands' breakdowns, exactly, in rational arithmetic. -/
theorem C10_additivity (u u1 u2 : UsageTokens) (model : Option String)
    (hin : u.input_tokens = u1.input_tokens + u2.input_tokens)
    (hout : u.output_tokens = u1.output_tokens + u2.output_tokens)
    (hcw : u.cache_creation_input_tokens.getD 0 =
      u1.cache_creation_input_tokens.getD 0 + u2.cache_creation_input_tokens.getD 0)
    (hcr : u.cache_read_input_tokens.getD 0 =
      u1.cache_read_input_tokens.getD 0 + u2.cache_read_input_tokens.getD 0) :
    (calculateCost u model).input =
      (calculateCost u1 model).input + (calculateCost u2 model).input ∧
    (calculateCost u model).output =
      (calculateCost u1 model).output + (calculateCost u2 model).output ∧
    (calculateCost u model).cacheWrite =
      (calculateCost u1 model).cacheWrite + (calculateCost u2 model).cacheWrite ∧
    (calculateCost u model).cacheRead =
      (calculateCost u1 model).cacheRead + (calculateCost u2 model).cacheRead ∧
    (calculateCost u model).total =
      (calculateCost u1 model).total + (calculateCost u2 model).total := by
  simp only [calculateCost, hin, hout, hcw, hcr]
  push_cast
  refine ⟨by ring, by ring, by ring, by ring, by ring⟩

/-- Witness for claim C10: the usage (3, 4, 5, 6) splits as the fieldwise sum
of (1, 1, 2, absent) and (2, 3, 3, 6). -/
theorem C10_additivity_witness :
    (calculateCost ⟨3, 4, some 5, some 6⟩ none).input =
      (calculateCost ⟨1, 1, some 2, none⟩ none).input +
        (calculateCost ⟨2, 3, some 3, some 6⟩ none).input ∧
    (calculateCost ⟨3, 4, some 5, some 6⟩ none).output =
      (calculateCost ⟨1, 1, some 2, none⟩ none).output +
        (calculateCost ⟨2, 3, some 3, some 6⟩ none).output ∧
    (calculateCost ⟨3, 4, some 5, some 6⟩ none).cacheWrite =
      (calculateCost ⟨1, 1, some 2, none⟩ none).cacheWrite +
        (calculateCost ⟨2, 3, some 3, some 6⟩ none).cacheWrite ∧
    (calculateCost ⟨3, 4, some 5, some 6⟩ none).cacheRead =
      (calculateCost ⟨1, 1, some 2, none⟩ none).cacheRead +
        (calculateCost ⟨2, 3, some 3, some 6⟩ none).cacheRead ∧
    (calculateCost ⟨3, 4, some 5, some 6⟩ none).total =
      (calculateCost ⟨1, 1, some 2, none⟩ none).total +
        (calculateCost ⟨2, 3, some 3, some 6⟩ none).total :=
  C10_additivity ⟨3, 4, some 5, some 6⟩ ⟨1, 1, some 2, none⟩ ⟨2, 3, some 3, some 6⟩ none
    (by decide) (by decide) (by decide) (by decide)

end Pricing
